import Mathlib

/-!
Verification of the optimistic-polling-app core logic.

The development shallowly embeds the parts of the repository that the
spec's claims are about:

* the Prisma data model (prisma/schema.prisma): Poll, Option (here
  PollOption, to avoid clashing with Lean's Option), Vote, with the
  unique constraint on (optionId, userId) and the foreign key from
  Vote.optionId to Option.id;
* the server actions (app/actions.ts): createPoll and submitVote,
  including their exact error messages and the catch block that
  translates only the P2002 unique-violation code;
* the read model (app/page.tsx): per-option vote counts, the
  findFirst lookup of the current user's vote within a poll, and the
  createdAt-descending poll listing;
* the client controller (app/components/PollCard.tsx): the
  useOptimistic updater, which performs an in-place increment of the
  clicked option's count (visible through the authoritative base
  state, since the returned object shares the option objects), the
  handleVote function, and the disabled predicate of the vote buttons.

The database is a record of lists; persistence failures are modelled
by the InsertVoteResult type.  Generated cuids are modelled by a
counter carried in the database record.
-/

namespace PollApp

/-- A Poll row (prisma/schema.prisma, model Poll).  createdAt is a
natural-number timestamp. -/
structure Poll where
  id : String
  question : String
  authorId : String
  createdAt : Nat
deriving DecidableEq

/-- An Option row (prisma/schema.prisma, model Option).  Named
PollOption because Option is taken by Lean. -/
structure PollOption where
  id : String
  text : String
  pollId : String
deriving DecidableEq

/-- A Vote row (prisma/schema.prisma, model Vote).  The schema puts a
unique constraint on the pair (optionId, userId). -/
structure Vote where
  id : String
  optionId : String
  userId : String
deriving DecidableEq

/-- The relational store.  nextId models the cuid generator: every
created row consumes one counter value.  User rows are not modelled:
no claim mentions any User attribute beyond the opaque id strings
already stored on Poll and Vote. -/
structure DB where
  polls : List Poll
  options : List PollOption
  votes : List Vote
  nextId : Nat
deriving DecidableEq

/-- Generated row ids (cuid stand-in). -/
def genId (n : Nat) : String := "c" ++ toString n

/-- Result of a server action: acknowledgement or an error message,
exactly the strings thrown or returned by app/actions.ts. -/
inductive Res where
  | ok
  | err (msg : String)
deriving DecidableEq

/-- Outcome of the persistence layer's insert of a Vote row.
uniqueViolation is Prisma error code P2002 (the (optionId, userId)
unique constraint), fkViolation is the referential-integrity
rejection when optionId matches no Option row, and storageFailure
stands for any other persistence error (connection loss and the
like), which the pure constraint model below never produces but which
the action's catch-all must still translate. -/
inductive InsertVoteResult where
  | inserted
  | uniqueViolation
  | fkViolation
  | storageFailure
deriving DecidableEq

/-- Constraint checking performed by the database on
prisma.vote.create: the unique index on (optionId, userId) is hit
first, then the foreign key on optionId. -/
def DB.insertVote (db : DB) (optionId userId : String) : InsertVoteResult :=
  if db.votes.any (fun v => v.optionId == optionId && v.userId == userId) then
    .uniqueViolation
  else if db.options.any (fun o => o.id == optionId) then
    .inserted
  else
    .fkViolation

/-- The catch block of submitVote (app/actions.ts): only the P2002
unique-violation code is recognised; every other persistence error,
including the referential-integrity rejection, falls through to the
generic fallback message. -/
def translateVoteError : InsertVoteResult → Res
  | .uniqueViolation => .err "You have already voted on this poll."
  | _ => .err "Could not submit vote. Please try again."

/-- submitVote (app/actions.ts).  The session argument is the current
user id from auth(); none models an absent session and the empty
string models a session whose user id is falsy, both rejected by the
same check.  The returned DB is the store after the call: every error
branch leaves it unchanged (the throw happens before the insert, or
the insert is rejected atomically). -/
def submitVote (db : DB) (session : Option String) (optionId : String) : Res × DB :=
  match session with
  | none => (.err "Not authenticated. Please sign in to vote.", db)
  | some uid =>
    if uid = "" then
      (.err "Not authenticated. Please sign in to vote.", db)
    else if optionId = "" then
      (.err "Invalid option ID provided.", db)
    else
      match db.insertVote optionId uid with
      | .inserted =>
        (.ok, { db with
                  votes := db.votes ++ [⟨genId db.nextId, optionId, uid⟩],
                  nextId := db.nextId + 1 })
      | r => (translateVoteError r, db)

/-- createPoll (app/actions.ts).  question is Option String because
formData.get returns null when the field is missing; the falsiness
check rejects both null and the empty string.  Option texts are
filtered to those nonempty after trim, then at least two are
required.  On success the Poll row and all Option rows are created
atomically. -/
def createPoll (db : DB) (session : Option String) (question : Option String)
    (rawOptions : List String) : Res × DB :=
  match session with
  | none => (.err "Not authenticated", db)
  | some uid =>
    if uid = "" then
      (.err "Not authenticated", db)
    else
      let opts := rawOptions.filter (fun t => t.trim != "")
      match question with
      | none => (.err "Question and at least two options are required.", db)
      | some q =>
        if q = "" ∨ opts.length < 2 then
          (.err "Question and at least two options are required.", db)
        else
          let pid := genId db.nextId
          let newOptions :=
            ((List.range opts.length).zip opts).map
              (fun pr => PollOption.mk (genId (db.nextId + 1 + pr.1)) pr.2 pid)
          (.ok, { db with
                    polls := db.polls ++ [⟨pid, q, uid, db.nextId⟩],
                    options := db.options ++ newOptions,
                    nextId := db.nextId + 1 + opts.length })

/-- Number of Vote rows for a given option (the _count.votes aggregate
of app/page.tsx). -/
def countVotes (db : DB) (optionId : String) : Nat :=
  (db.votes.filter (fun v => v.optionId == optionId)).length

/-- Number of Vote rows with a given (optionId, userId) pair; the
schema's unique constraint asserts this never exceeds one. -/
def pairCount (db : DB) (optionId userId : String) : Nat :=
  (db.votes.filter (fun v => v.optionId == optionId && v.userId == userId)).length

/-- The relation filter option: { pollId: poll.id } of the findFirst
call in app/page.tsx: the vote's related Option row has the given
pollId. -/
def voteInPoll (opts : List PollOption) (v : Vote) (pollId : String) : Bool :=
  match opts.find? (fun o => o.id == v.optionId) with
  | some o => o.pollId == pollId
  | none => false

/-- prisma.vote.findFirst of app/page.tsx: the first stored vote of
the user within the poll's options; the code then coalesces a falsy
optionId to null (userVote = vote?.optionId || null). -/
def findUserVote (db : DB) (userId pollId : String) : Option String :=
  match db.votes.find? (fun v => v.userId == userId && voteInPoll db.options v pollId) with
  | some v => if v.optionId = "" then none else some v.optionId
  | none => none

/-- One option as rendered: id, text and aggregated vote count. -/
structure OptionView where
  id : String
  text : String
  votes : Nat
deriving DecidableEq

/-- The poll data handed to PollCard: question, option views and the
current user's vote (null when absent or signed out). -/
structure PollView where
  id : String
  question : String
  options : List OptionView
  userVote : Option String
deriving DecidableEq

/-- Assemble the view of one poll for the given session
(app/page.tsx): options with counts, and the user's vote looked up
only when the session's user id is truthy. -/
def pollView (db : DB) (session : Option String) (p : Poll) : PollView :=
  { id := p.id
    question := p.question
    options := (db.options.filter (fun o => o.pollId == p.id)).map
      (fun o => ⟨o.id, o.text, countVotes db o.id⟩)
    userVote :=
      match session with
      | some uid => if uid = "" then none else findUserVote db uid p.id
      | none => none }

/-- Insert a poll into a list kept in createdAt-descending order. -/
def insertDesc (p : Poll) : List Poll → List Poll
  | [] => [p]
  | q :: qs => if p.createdAt ≤ q.createdAt then q :: insertDesc p qs else p :: q :: qs

/-- orderBy createdAt desc of app/page.tsx. -/
def sortByCreatedAtDesc (ps : List Poll) : List Poll :=
  ps.foldr insertDesc []

/-- The full read model of app/page.tsx: all polls, newest first, each
assembled into a PollView for the current session. -/
def listPolls (db : DB) (session : Option String) : List PollView :=
  (sortByCreatedAtDesc db.polls).map (pollView db session)

/-!
Client side: PollCard.tsx.  The useOptimistic updater is

  (currentState, votedOptionId) => {
    const newOption = currentState.options.find(o => o.id === votedOptionId);
    if (newOption) { newOption._count.votes++; }
    return { ...currentState, userVote: votedOptionId };
  }

The spread produces a new top-level object, but the options array and
the option objects inside it are shared with currentState, and the
increment mutates the found option object in place.  The embedding
therefore returns a pair: the first component is what the original
base state object holds after the call (counts bumped, userVote as
before), the second is the returned optimistic view (counts bumped,
userVote set). -/

/-- JavaScript truthiness of the userVote field (null and the empty
string are falsy). -/
def jsTruthy : Option String → Bool
  | none => false
  | some s => s != ""

/-- Increment the vote count of the first option whose id matches, as
Array.prototype.find followed by the in-place increment does; leave
the list unchanged when no option matches. -/
def bumpFirst : List OptionView → String → List OptionView
  | [], _ => []
  | o :: os, oid =>
    if o.id = oid then { o with votes := o.votes + 1 } :: os
    else o :: bumpFirst os oid

/-- The useOptimistic updater of PollCard.tsx.  First component: the
base state object after the call (mutated through sharing); second
component: the returned optimistic view. -/
def optimisticUpdate (s : PollView) (oid : String) : PollView × PollView :=
  let opts := bumpFirst s.options oid
  ({ s with options := opts }, { s with options := opts, userVote := some oid })

/-- What React renders after a failed submitVote: the optimistic view
is discarded and the base state object is rendered again.  Because
the updater incremented the count inside that object, the rollback
renders the mutated base, not the pre-increment state. -/
def rollbackView (s : PollView) (oid : String) : PollView :=
  (optimisticUpdate s oid).1

/-- The disabled attribute of every vote button in PollCard.tsx:
disabled = !!optimisticPoll.userVote. -/
def buttonDisabled (s : PollView) : Bool := jsTruthy s.userVote

/-- Client controller state: the currently rendered optimistic view
and the list of submitVote calls issued to the server so far. -/
structure Controller where
  view : PollView
  calls : List String
deriving DecidableEq

/-- handleVote of PollCard.tsx: unconditionally apply the optimistic
updater and issue the submitVote server call.  There is no
pending-state guard inside this function. -/
def handleVote (c : Controller) (oid : String) : Controller :=
  { view := (optimisticUpdate c.view oid).2, calls := c.calls ++ [oid] }

/-- A click on the vote button of option oid: the button carries
disabled = !!optimisticPoll.userVote, so a click reaches handleVote
only while the rendered userVote is falsy. -/
def clickVote (c : Controller) (oid : String) : Controller :=
  if buttonDisabled c.view then c else handleVote c oid

/-- Number of Vote rows a user holds among a given poll's options:
the quantity the one-vote-per-poll reading of the invariant is
about. -/
def userVotesInPoll (db : DB) (userId pollId : String) : Nat :=
  (db.votes.filter (fun v => v.userId == userId && voteInPoll db.options v pollId)).length

/-! Concrete stores and view states used by the witnesses and
counterexamples below. -/

/-- A store with one poll and one option and no votes. -/
def dbW1 : DB :=
  { polls := [⟨"p1", "Best language?", "alice", 0⟩],
    options := [⟨"o1", "Go", "p1"⟩],
    votes := [],
    nextId := 0 }

/-- A store where user u1 already voted for option o1 of poll p1,
which also has a second option o2. -/
def dbC3 : DB :=
  { polls := [⟨"p1", "Best language?", "alice", 0⟩],
    options := [⟨"o1", "Go", "p1"⟩, ⟨"o2", "Rust", "p1"⟩],
    votes := [⟨"v0", "o1", "u1"⟩],
    nextId := 7 }

/-- A store for exercising the (optionId, userId) bound. -/
def dbW3 : DB :=
  { polls := [⟨"p3", "Q3", "carol", 0⟩],
    options := [⟨"o31", "A", "p3"⟩, ⟨"o32", "B", "p3"⟩],
    votes := [⟨"v30", "o31", "u3"⟩],
    nextId := 4 }

/-- A store with a single known option, for the unknown-option calls. -/
def dbC6 : DB :=
  { polls := [⟨"p6", "Q6", "dave", 0⟩],
    options := [⟨"o61", "A", "p6"⟩],
    votes := [],
    nextId := 0 }

/-- An empty store for the createPoll validation witness. -/
def dbW7 : DB :=
  { polls := [], options := [], votes := [], nextId := 0 }

/-- A store where user u8 already voted for option w1 of poll p8; a
successful vote for w2 then makes the read model report w1, not
w2. -/
def dbC8 : DB :=
  { polls := [⟨"p8", "Q8", "erin", 0⟩],
    options := [⟨"w1", "Go", "p8"⟩, ⟨"w2", "Rust", "p8"⟩],
    votes := [⟨"v8", "w1", "u8"⟩],
    nextId := 9 }

/-- A store with no prior vote, for the read-after-write witness. -/
def dbW8 : DB :=
  { polls := [⟨"p9", "Q9", "fred", 0⟩],
    options := [⟨"z1", "Yes", "p9"⟩, ⟨"z2", "No", "p9"⟩],
    votes := [],
    nextId := 2 }

/-- A store for the unauthenticated-call witness. -/
def dbW9 : DB :=
  { polls := [⟨"p0", "Q0", "gail", 0⟩],
    options := [⟨"o01", "A", "p0"⟩],
    votes := [],
    nextId := 3 }

/-- The poll view used for the rollback counterexample. -/
def s2pre : PollView :=
  { id := "p2", question := "Best language?",
    options := [⟨"go", "Go", 0⟩, ⟨"rs", "Rust", 0⟩],
    userVote := none }

/-- The poll view used for the destructive-update counterexample. -/
def s4pre : PollView :=
  { id := "p4", question := "Q4",
    options := [⟨"x4", "X", 3⟩],
    userVote := none }

/-- Idle controller state for the double-invoke counterexample. -/
def c5pre : Controller :=
  { view := { id := "p5", question := "Q5",
              options := [⟨"a5", "A", 0⟩],
              userVote := none },
    calls := [] }

/-- Idle controller state for the disabled-button witness. -/
def c5w : Controller :=
  { view := { id := "p5b", question := "Q5b",
              options := [⟨"b5", "B", 1⟩],
              userVote := none },
    calls := [] }

/-- Poll view for the unmatched-option counterexample. -/
def s10pre : PollView :=
  { id := "pA", question := "QA",
    options := [⟨"aA", "A", 0⟩],
    userVote := none }

/-- Poll view for the unmatched-option witness. -/
def s10w : PollView :=
  { id := "pB", question := "QB",
    options := [⟨"bB", "B", 2⟩],
    userVote := none }

/-! Helper lemmas about the Vote Service. -/

/-- An authenticated submitVote for an existing option with no prior
(optionId, userId) row inserts exactly one Vote row. -/
theorem submitVote_success (db : DB) (u oid : String)
    (hu : u ≠ "") (hoid : oid ≠ "")
    (hopt : db.options.any (fun o => o.id == oid) = true)
    (hnew : db.votes.any (fun v => v.optionId == oid && v.userId == u) = false) :
    submitVote db (some u) oid =
      (Res.ok, { db with
                   votes := db.votes ++ [⟨genId db.nextId, oid, u⟩],
                   nextId := db.nextId + 1 }) := by
  unfold submitVote DB.insertVote
  simp [hu, hoid, hnew, hopt]

/-- An authenticated submitVote that hits an existing
(optionId, userId) row fails with the AlreadyVoted message and leaves
the store unchanged. -/
theorem submitVote_duplicate (db : DB) (u oid : String)
    (hu : u ≠ "") (hoid : oid ≠ "")
    (hdup : db.votes.any (fun v => v.optionId == oid && v.userId == u) = true) :
    submitVote db (some u) oid = (Res.err "You have already voted on this poll.", db) := by
  unfold submitVote DB.insertVote
  simp [hu, hoid, hdup, translateVoteError]

/-- An authenticated submitVote whose optionId matches no Option row
(and no Vote row, which the foreign key guarantees for a well-formed
store) fails with the generic fallback message and leaves the store
unchanged. -/
theorem submitVote_unknown (db : DB) (u oid : String)
    (hu : u ≠ "") (hoid : oid ≠ "")
    (hmiss : db.options.any (fun o => o.id == oid) = false)
    (hnov : db.votes.any (fun v => v.optionId == oid && v.userId == u) = false) :
    submitVote db (some u) oid = (Res.err "Could not submit vote. Please try again.", db) := by
  unfold submitVote DB.insertVote
  simp [hu, hoid, hnov, hmiss, translateVoteError]

/-- A successful insert means the unique index found no matching pair
and the foreign key found the option. -/
theorem insertVote_inserted {db : DB} {oid uid : String}
    (h : db.insertVote oid uid = .inserted) :
    db.votes.any (fun v => v.optionId == oid && v.userId == uid) = false ∧
    db.options.any (fun o => o.id == oid) = true := by
  unfold DB.insertVote at h
  by_cases h1 : db.votes.any (fun v => v.optionId == oid && v.userId == uid) = true
  · simp [h1] at h
  · by_cases h2 : db.options.any (fun o => o.id == oid) = true
    · exact ⟨by simpa using h1, h2⟩
    · simp [h1, h2] at h

/-- Whatever the arguments, submitVote preserves the bound of at most
one Vote row per (optionId, userId) pair. -/
theorem pairCount_submitVote (db : DB) (s : Option String) (x o u : String)
    (h : pairCount db o u ≤ 1) : pairCount (submitVote db s x).2 o u ≤ 1 := by
  unfold submitVote
  cases s with
  | none => simpa using h
  | some uid =>
    by_cases huid : uid = ""
    · simpa [huid] using h
    · by_cases hx : x = ""
      · simpa [huid, hx] using h
      · cases hins : db.insertVote x uid with
        | inserted =>
          obtain ⟨hdup, _⟩ := insertVote_inserted hins
          dsimp only
          rw [if_neg huid, if_neg hx, hins]
          unfold pairCount at h ⊢
          dsimp only
          rw [List.filter_append, List.length_append]
          by_cases hmatch : x = o ∧ uid = u
          · obtain ⟨hxo, huu⟩ := hmatch
            subst hxo; subst huu
            have hfil : db.votes.filter (fun v => v.optionId == x && v.userId == uid) = [] := by
              rw [List.filter_eq_nil_iff]
              intro a ha
              exact (List.any_eq_false).mp hdup a ha
            rw [hfil]
            simp
          · have hpe : ((⟨genId db.nextId, x, uid⟩ : Vote).optionId == o &&
                (⟨genId db.nextId, x, uid⟩ : Vote).userId == u) = false := by
              by_contra hc
              simp only [Bool.not_eq_false, Bool.and_eq_true, beq_iff_eq] at hc
              exact hmatch hc
            simpa [List.filter_cons, hpe] using h
        | uniqueViolation =>
          simpa [huid, hx, hins, translateVoteError] using h
        | fkViolation =>
          simpa [huid, hx, hins, translateVoteError] using h
        | storageFailure =>
          simpa [huid, hx, hins, translateVoteError] using h

/-- When no option of the list carries the clicked id, the in-place
increment never happens and the option list is untouched. -/
theorem bumpFirst_of_none (opts : List OptionView) (oid : String)
    (h : ∀ o ∈ opts, o.id ≠ oid) : bumpFirst opts oid = opts := by
  induction opts with
  | nil => rfl
  | cons a as ih =>
    unfold bumpFirst
    rw [if_neg (h a (List.mem_cons_self a as))]
    rw [ih (fun o ho => h o (List.mem_cons_of_mem a ho))]

/-- Membership is preserved by the ordered insert. -/
theorem mem_insertDesc (a p : Poll) (l : List Poll) :
    a ∈ insertDesc p l ↔ a = p ∨ a ∈ l := by
  induction l with
  | nil => simp [insertDesc]
  | cons q qs ih =>
    unfold insertDesc
    by_cases hle : p.createdAt ≤ q.createdAt
    · rw [if_pos hle]
      simp only [List.mem_cons, ih]
      tauto
    · rw [if_neg hle]
      simp only [List.mem_cons]

/-- Every stored poll appears in the createdAt-descending listing. -/
theorem mem_sortByCreatedAtDesc (p : Poll) (ps : List Poll)
    (h : p ∈ ps) : p ∈ sortByCreatedAtDesc ps := by
  unfold sortByCreatedAtDesc
  induction ps with
  | nil => cases h
  | cons q qs ih =>
    rw [List.foldr_cons]
    rcases List.mem_cons.mp h with hq | hqs
    · exact (mem_insertDesc p q _).mpr (Or.inl hq)
    · exact (mem_insertDesc p q _).mpr (Or.inr (ih hqs))

/-- createPoll never creates, deletes or rewrites Vote rows, whatever
its arguments and outcome. -/
theorem createPoll_keeps_votes (db : DB) (s : Option String) (q : Option String)
    (r : List String) : ((createPoll db s q r).2).votes = db.votes := by
  unfold createPoll
  cases s with
  | none => rfl
  | some uid =>
    dsimp only
    by_cases h : uid = ""
    · rw [if_pos h]
    · rw [if_neg h]
      cases q with
      | none => rfl
      | some qq =>
        dsimp only
        by_cases h2 : qq = "" ∨ (r.filter (fun t => t.trim != "")).length < 2
        · rw [if_pos h2]
        · rw [if_neg h2]

/-! The claims. -/

/-- Claim C1: submitVote preserves the bound of at most one Vote row
per (optionId, userId) pair, and when two submitVote calls for the
same (user, option) pair are issued against a store with no such row
yet (the database serialises the two inserts), the first to reach the
store succeeds and persists exactly one new Vote row while the second
fails with the AlreadyVoted error and changes nothing; createPoll,
the only other mutating action, never touches Vote rows. -/
theorem submitVote_unique_and_double_submit
    (db0 db db1 : DB) (s0 s1 : Option String) (x o2 u2 u oid : String)
    (q1 : Option String) (r1 : List String)
    (h0 : pairCount db0 o2 u2 ≤ 1)
    (hu : u ≠ "") (hoid : oid ≠ "")
    (hopt : db.options.any (fun o => o.id == oid) = true)
    (hnew : db.votes.any (fun v => v.optionId == oid && v.userId == u) = false) :
    pairCount (submitVote db0 s0 x).2 o2 u2 ≤ 1
    ∧ ((createPoll db1 s1 q1 r1).2).votes = db1.votes
    ∧ (submitVote db (some u) oid).1 = Res.ok
    ∧ (submitVote db (some u) oid).2.votes = db.votes ++ [⟨genId db.nextId, oid, u⟩]
    ∧ (submitVote (submitVote db (some u) oid).2 (some u) oid).1
        = Res.err "You have already voted on this poll."
    ∧ (submitVote (submitVote db (some u) oid).2 (some u) oid).2
        = (submitVote db (some u) oid).2 := by
  have hsucc := submitVote_success db u oid hu hoid hopt hnew
  have hdup : ({ db with
      votes := db.votes ++ [⟨genId db.nextId, oid, u⟩],
      nextId := db.nextId + 1 } : DB).votes.any
      (fun v => v.optionId == oid && v.userId == u) = true := by
    simp [List.any_append]
  have hsecond := submitVote_duplicate
    ({ db with
        votes := db.votes ++ [⟨genId db.nextId, oid, u⟩],
        nextId := db.nextId + 1 } : DB) u oid hu hoid hdup
  refine ⟨pairCount_submitVote db0 s0 x o2 u2 h0,
    createPoll_keeps_votes db1 s1 q1 r1, ?_, ?_, ?_, ?_⟩
  · rw [hsucc]
  · rw [hsucc]
  · rw [hsucc]
    rw [hsecond]
  · rw [hsucc]
    rw [hsecond]

/-- Witness for C1 on a concrete store. -/
theorem submitVote_unique_and_double_submit_witness :
    pairCount (submitVote dbW1 (some "u1") "o1").2 "o1" "u1" ≤ 1
    ∧ ((createPoll dbW1 (some "u1") (some "Q") ["a", "b"]).2).votes = dbW1.votes
    ∧ (submitVote dbW1 (some "u1") "o1").1 = Res.ok
    ∧ (submitVote dbW1 (some "u1") "o1").2.votes
        = dbW1.votes ++ [⟨genId dbW1.nextId, "o1", "u1"⟩]
    ∧ (submitVote (submitVote dbW1 (some "u1") "o1").2 (some "u1") "o1").1
        = Res.err "You have already voted on this poll."
    ∧ (submitVote (submitVote dbW1 (some "u1") "o1").2 (some "u1") "o1").2
        = (submitVote dbW1 (some "u1") "o1").2 :=
  submitVote_unique_and_double_submit dbW1 dbW1 dbW1 (some "u1") (some "u1")
    "o1" "o1" "u1" "u1" "o1" (some "Q") ["a", "b"]
    (by decide) (by decide) (by decide) (by decide) (by decide)

/-- Claim C2 (code behaviour at the failing input): after a failed
submitVote, React re-renders the base state object, but the updater
incremented the count inside that shared object, so the rendered
count after rollback is one higher than before the optimistic
increment; only the userVote field comes back to its prior value. -/
theorem optimistic_rollback_not_exact :
    (rollbackView s2pre "go").userVote = s2pre.userVote
    ∧ (rollbackView s2pre "go").options = [⟨"go", "Go", 1⟩, ⟨"rs", "Rust", 0⟩]
    ∧ rollbackView s2pre "go" ≠ s2pre := by decide

/-- Claim C3 counterexample: user u1 already holds a Vote row for
option o1 of poll p1; the server nevertheless accepts a submitVote
for option o2 of the same poll, leaving u1 with two recorded votes
inside poll p1. -/
theorem submitVote_second_option_accepted_cex :
    (submitVote dbC3 (some "u1") "o2").1 = Res.ok
    ∧ userVotesInPoll dbC3 "u1" "p1" = 1
    ∧ userVotesInPoll (submitVote dbC3 (some "u1") "o2").2 "u1" "p1" = 2 := by decide

/-- Claim C3 (amended): the server enforces uniqueness only at the
(optionId, userId) granularity - submitVote preserves the bound of at
most one Vote row per pair - and an authenticated vote for a fresh
(optionId, userId) pair is accepted regardless of any prior vote by
the same user for another option of the same poll. -/
theorem submitVote_pair_uniqueness_only
    (db : DB) (s : Option String) (x o u : String)
    (h : pairCount db o u ≤ 1)
    (db2 : DB) (u2 oid2 : String) (hu2 : u2 ≠ "") (hoid2 : oid2 ≠ "")
    (hopt2 : db2.options.any (fun o => o.id == oid2) = true)
    (hnew2 : db2.votes.any (fun v => v.optionId == oid2 && v.userId == u2) = false) :
    pairCount (submitVote db s x).2 o u ≤ 1
    ∧ (submitVote db2 (some u2) oid2).1 = Res.ok :=
  ⟨pairCount_submitVote db s x o u h,
   by rw [submitVote_success db2 u2 oid2 hu2 hoid2 hopt2 hnew2]⟩

/-- Witness for the amended C3: dbW3 already stores a vote by u3 for
option o31 of poll p3, and the vote for o32 is still accepted. -/
theorem submitVote_pair_uniqueness_only_witness :
    pairCount (submitVote dbW3 (some "u3") "o32").2 "o31" "u3" ≤ 1
    ∧ (submitVote dbW3 (some "u3") "o32").1 = Res.ok :=
  submitVote_pair_uniqueness_only dbW3 (some "u3") "o32" "o31" "u3" (by decide)
    dbW3 "u3" "o32" (by decide) (by decide) (by decide) (by decide)

/-- Claim C4 (code behaviour at the failing input): the useOptimistic
updater is destructive, not derived - applying it changes the
authoritative state object itself (the count goes from 3 to 4 inside
it), and recomputing the overlaid view from that same object then
shows 5, not 4. -/
theorem optimistic_update_mutates_base :
    (optimisticUpdate s4pre "x4").1 ≠ s4pre
    ∧ (optimisticUpdate s4pre "x4").1.options = [⟨"x4", "X", 4⟩]
    ∧ (optimisticUpdate (optimisticUpdate s4pre "x4").1 "x4").2.options
        = [⟨"x4", "X", 5⟩] := by decide

/-- Claim C5 counterexample: handleVote carries no pending-state
guard, so invoking it twice in rapid succession for the same option
increments the local count twice and issues two Vote Service calls. -/
theorem handleVote_double_invoke_cex :
    (handleVote (handleVote c5pre "a5") "a5").calls = ["a5", "a5"]
    ∧ (handleVote (handleVote c5pre "a5") "a5").view.options = [⟨"a5", "A", 2⟩]
    ∧ handleVote (handleVote c5pre "a5") "a5" ≠ handleVote c5pre "a5" := by decide

/-- Claim C5 (amended): the double-submit protection lives in the
disabled attribute of the buttons, not in handleVote - once the first
handleVote has set the optimistic userVote to a non-empty option id,
every further button click for that poll (any option) is a no-op:
state unchanged, no further Vote Service call. -/
theorem clickVote_noop_after_optimistic_vote
    (c : Controller) (oid oid2 : String) (hne : oid ≠ "") :
    clickVote (handleVote c oid) oid2 = handleVote c oid := by
  unfold clickVote
  have hbtn : buttonDisabled (handleVote c oid).view = true := by
    unfold buttonDisabled handleVote optimisticUpdate jsTruthy
    simpa [bne_iff_ne] using hne
  rw [hbtn]
  simp

/-- Witness for the amended C5 on a concrete controller state. -/
theorem clickVote_noop_after_optimistic_vote_witness :
    clickVote (handleVote c5w "b5") "b5" = handleVote c5w "b5" :=
  clickVote_noop_after_optimistic_vote c5w "b5" "b5" (by decide)

/-- Claim C6 counterexample: for an optionId that matches no Option
row, submitVote fails with the generic fallback message - the very
message translateVoteError gives any other persistence failure - so
no InvalidTarget-specific error is ever surfaced; the store is
unchanged. -/
theorem submitVote_unknown_option_cex :
    submitVote dbC6 (some "u6") "ghost"
      = (Res.err "Could not submit vote. Please try again.", dbC6)
    ∧ translateVoteError InsertVoteResult.storageFailure
      = Res.err "Could not submit vote. Please try again."
    ∧ translateVoteError InsertVoteResult.fkViolation
      = translateVoteError InsertVoteResult.storageFailure := by decide

/-- Claim C6 (amended): an authenticated submitVote whose non-empty
optionId references no Option row fails with the generic fallback
error Could not submit vote. Please try again. - indistinguishable
from any other persistence failure - and persists no Vote row. -/
theorem submitVote_unknown_option_fallback
    (db : DB) (u oid : String) (hu : u ≠ "") (hoid : oid ≠ "")
    (hmiss : db.options.any (fun o => o.id == oid) = false)
    (hnov : db.votes.any (fun v => v.optionId == oid && v.userId == u) = false) :
    submitVote db (some u) oid = (Res.err "Could not submit vote. Please try again.", db) :=
  submitVote_unknown db u oid hu hoid hmiss hnov

/-- Witness for the amended C6 on a concrete store. -/
theorem submitVote_unknown_option_fallback_witness :
    submitVote dbC6 (some "u6b") "nope"
      = (Res.err "Could not submit vote. Please try again.", dbC6) :=
  submitVote_unknown_option_fallback dbC6 "u6b" "nope"
    (by decide) (by decide) (by decide) (by decide)

/-- Claim C7: an authenticated createPoll whose question is missing or
empty, or whose submitted option texts leave fewer than two that are
non-empty after trimming, is rejected with the ValidationFailed
message and the store is unchanged - no Poll row, no Option row. -/
theorem createPoll_validation_rejects
    (db : DB) (u : String) (hu : u ≠ "")
    (question : Option String) (rawOptions : List String)
    (hbad : question = none ∨ question = some "" ∨
      (rawOptions.filter (fun t => t.trim != "")).length < 2) :
    createPoll db (some u) question rawOptions
      = (Res.err "Question and at least two options are required.", db) := by
  unfold createPoll
  dsimp only
  rw [if_neg hu]
  rcases hbad with hq | hq | hlen
  · rw [hq]
  · rw [hq]
    dsimp only
    rw [if_pos (Or.inl rfl)]
  · cases question with
    | none => rfl
    | some q =>
      dsimp only
      rw [if_pos (Or.inr hlen)]

/-- Witness for C7: the spec scenario - question X with the single
option text only one - is rejected and nothing is persisted. -/
theorem createPoll_validation_rejects_witness :
    createPoll dbW7 (some "u7") (some "X") ["only one"]
      = (Res.err "Question and at least two options are required.", dbW7) :=
  createPoll_validation_rejects dbW7 "u7" (by decide) (some "X") ["only one"]
    (Or.inr (Or.inr (lt_of_le_of_lt (List.length_filter_le _ _) (by decide))))

/-- Claim C8 counterexample: u8 already holds a vote for option w1 of
poll p8; submitVote for w2 succeeds and the count of w2 rises by one,
but the subsequent read reports the user's vote as w1 - the first
matching row found - not the freshly chosen w2. -/
theorem listPolls_reports_prior_option_cex :
    (submitVote dbC8 (some "u8") "w2").1 = Res.ok
    ∧ countVotes (submitVote dbC8 (some "u8") "w2").2 "w2" = countVotes dbC8 "w2" + 1
    ∧ (pollView (submitVote dbC8 (some "u8") "w2").2 (some "u8") ⟨"p8", "Q8", "erin", 0⟩).userVote
        = some "w1"
    ∧ (pollView (submitVote dbC8 (some "u8") "w2").2 (some "u8") ⟨"p8", "Q8", "erin", 0⟩).userVote
        ≠ some "w2" := by decide

/-- Claim C8 (amended): if the user had no prior vote among the
poll's options, then after a successful submitVote the option's count
has risen by exactly one and the poll's entry in the listPolls read
reports the user's vote as the chosen option. -/
theorem submitVote_then_read
    (db : DB) (u : String) (p : Poll) (o : PollOption)
    (hu : u ≠ "") (ho : o.id ≠ "")
    (hp : p ∈ db.polls)
    (hfind : db.options.find? (fun x => x.id == o.id) = some o)
    (hop : o.pollId = p.id)
    (hnoprior : ∀ v ∈ db.votes, ¬(v.userId = u ∧ voteInPoll db.options v p.id = true)) :
    (submitVote db (some u) o.id).1 = Res.ok
    ∧ countVotes (submitVote db (some u) o.id).2 o.id = countVotes db o.id + 1
    ∧ (pollView (submitVote db (some u) o.id).2 (some u) p).userVote = some o.id
    ∧ pollView (submitVote db (some u) o.id).2 (some u) p
        ∈ listPolls (submitVote db (some u) o.id).2 (some u) := by
  have hopt : db.options.any (fun x => x.id == o.id) = true :=
    List.any_eq_true.mpr ⟨o, List.mem_of_find?_eq_some hfind, by simp⟩
  have hnew : db.votes.any (fun v => v.optionId == o.id && v.userId == u) = false := by
    rw [List.any_eq_false]
    intro v hv hpred
    rw [Bool.and_eq_true, beq_iff_eq, beq_iff_eq] at hpred
    refine hnoprior v hv ⟨hpred.2, ?_⟩
    unfold voteInPoll
    rw [hpred.1, hfind]
    simpa using hop
  have hsucc := submitVote_success db u o.id hu ho hopt hnew
  rw [hsucc]
  set nv : Vote := ⟨genId db.nextId, o.id, u⟩ with hnv
  have hpinpoll : voteInPoll db.options nv p.id = true := by
    unfold voteInPoll
    rw [hnv]
    dsimp only
    rw [hfind]
    simpa using hop
  refine ⟨rfl, ?_, ?_, ?_⟩
  · unfold countVotes
    dsimp only
    rw [List.filter_append, List.length_append]
    simp [List.filter_cons]
  · unfold pollView
    dsimp only
    rw [if_neg hu]
    unfold findUserVote
    dsimp only
    rw [List.find?_append]
    have hfirst : db.votes.find? (fun v => v.userId == u && voteInPoll db.options v p.id)
        = none := by
      rw [List.find?_eq_none]
      intro v hv hpred
      rw [Bool.and_eq_true, beq_iff_eq] at hpred
      exact hnoprior v hv ⟨hpred.1, hpred.2⟩
    rw [hfirst]
    have hpred : (nv.userId == u && voteInPoll db.options nv p.id) = true := by
      rw [Bool.and_eq_true, beq_iff_eq]
      exact ⟨rfl, hpinpoll⟩
    have hsnd : List.find? (fun v => v.userId == u && voteInPoll db.options v p.id) [nv]
        = some nv := by
      rw [List.find?_cons, hpred]
    rw [hsnd]
    dsimp only [Option.or]
    rw [if_neg]
    exact ho
  · apply List.mem_map.mpr
    refine ⟨p, ?_, rfl⟩
    exact mem_sortByCreatedAtDesc p db.polls hp

/-- Witness for the amended C8 on a concrete store with no prior
vote. -/
theorem submitVote_then_read_witness :
    (submitVote dbW8 (some "u9") "z1").1 = Res.ok
    ∧ countVotes (submitVote dbW8 (some "u9") "z1").2 "z1" = countVotes dbW8 "z1" + 1
    ∧ (pollView (submitVote dbW8 (some "u9") "z1").2 (some "u9") ⟨"p9", "Q9", "fred", 0⟩).userVote
        = some "z1"
    ∧ pollView (submitVote dbW8 (some "u9") "z1").2 (some "u9") ⟨"p9", "Q9", "fred", 0⟩
        ∈ listPolls (submitVote dbW8 (some "u9") "z1").2 (some "u9") :=
  submitVote_then_read dbW8 "u9" ⟨"p9", "Q9", "fred", 0⟩ ⟨"z1", "Yes", "p9"⟩
    (by decide) (by decide) (by decide) (by decide) (by decide) (by decide)

/-- Claim C9: with no authenticated user id - an absent session or a
falsy one - both submitVote and createPoll fail with their
authentication error and the store is untouched: no row created or
modified. -/
theorem unauthenticated_no_mutation
    (db : DB) (s : Option String) (hs : s = none ∨ s = some "")
    (oid : String) (q : Option String) (ro : List String) :
    submitVote db s oid = (Res.err "Not authenticated. Please sign in to vote.", db)
    ∧ createPoll db s q ro = (Res.err "Not authenticated", db) := by
  rcases hs with h | h <;> subst h <;>
    exact ⟨by simp [submitVote], by simp [createPoll]⟩

/-- Witness for C9 on a concrete store with an absent session. -/
theorem unauthenticated_no_mutation_witness :
    submitVote dbW9 none "o01" = (Res.err "Not authenticated. Please sign in to vote.", dbW9)
    ∧ createPoll dbW9 none (some "Q") ["a", "b"] = (Res.err "Not authenticated", dbW9) :=
  unauthenticated_no_mutation dbW9 none (Or.inl rfl) "o01" (some "Q") ["a", "b"]

/-- Claim C10 counterexample: applied with the empty string - an
optionId matching none of the poll's options - the updater changes no
count and still writes the id into userVote, but the buttons do NOT
become disabled, because the empty string is falsy in the disabled
check. -/
theorem optimistic_empty_unmatched_id_cex :
    (optimisticUpdate s10pre "").2.options = s10pre.options
    ∧ (optimisticUpdate s10pre "").2.userVote = some ""
    ∧ buttonDisabled (optimisticUpdate s10pre "").2 = false := by decide

/-- Claim C10 (amended): for a non-empty optionId matching none of
the poll's options, the updater changes no vote count (and leaves the
base state intact), still sets userVote to the unmatched id, and that
truthy userVote disables every vote button of the poll. -/
theorem optimistic_unmatched_option
    (s : PollView) (oid : String) (hne : oid ≠ "")
    (hmiss : ∀ o ∈ s.options, o.id ≠ oid) :
    (optimisticUpdate s oid).2.options = s.options
    ∧ (optimisticUpdate s oid).1 = s
    ∧ (optimisticUpdate s oid).2.userVote = some oid
    ∧ buttonDisabled (optimisticUpdate s oid).2 = true := by
  have hb := bumpFirst_of_none s.options oid hmiss
  unfold optimisticUpdate
  refine ⟨by simp [hb], ?_, rfl, ?_⟩
  · dsimp only
    rw [hb]
  · unfold buttonDisabled jsTruthy
    simpa [bne_iff_ne] using hne

/-- Witness for the amended C10 on a concrete view. -/
theorem optimistic_unmatched_option_witness :
    (optimisticUpdate s10w "zz").2.options = s10w.options
    ∧ (optimisticUpdate s10w "zz").1 = s10w
    ∧ (optimisticUpdate s10w "zz").2.userVote = some "zz"
    ∧ buttonDisabled (optimisticUpdate s10w "zz").2 = true :=
  optimistic_unmatched_option s10w "zz" (by decide) (by decide)

end PollApp
